import Mathlib

/-!
Shallow embedding of the fantine repository (src/scraper.py and
src/ohio_scraper.py) for checking the natural-language specification.

Python JSON-like values are modelled by `PyVal`; Python exceptions that the
scrapers can raise and catch are modelled by `PyErr`.  Wall-clock timestamps,
freshly generated UUIDs and the HTTP transport are out of scope of the spec
and enter the model as explicit parameters (a run context, a uuid generator
`Nat → String`, and response values).
-/

/-- Python values as they occur in the parsed JSON payloads handled by the
scrapers: `None`, strings, integers, lists and dicts. -/
inductive PyVal where
  | null
  | str (s : String)
  | num (n : Int)
  | arr (xs : List PyVal)
  | obj (kvs : List (String × PyVal))

/-- Python exceptions that the scraper code can raise and catch. -/
inductive PyErr where
  | attributeError
  | indexError
  | typeError
  | keyError
  | valueError
  | transport (msg : String)

/-- Message text of an exception, modelling `str(e)`. -/
def errMsg : PyErr → String
  | .attributeError => "AttributeError"
  | .indexError => "IndexError"
  | .typeError => "TypeError"
  | .keyError => "KeyError"
  | .valueError => "ValueError"
  | .transport m => m

/-- Association-list lookup for the dict model (keys are unique in dicts
produced by JSON parsing; the first match is taken). -/
def lookupKey (kvs : List (String × PyVal)) (k : String) : Option PyVal :=
  match kvs with
  | [] => none
  | (k', v) :: rest => if k' = k then some v else lookupKey rest k

/-- Models Python `d.get(k, default)`: the stored value if the key is present
(even when that value is `None`), the default otherwise. -/
def pyGetD (kvs : List (String × PyVal)) (k : String) (d : PyVal) : PyVal :=
  (lookupKey kvs k).getD d

/-- Python truthiness of a value, as used in `x if d.get(k) else y`. -/
def pyTruthy : PyVal → Bool
  | .null => false
  | .str s => !s.isEmpty
  | .num n => n != 0
  | .arr xs => !xs.isEmpty
  | .obj kvs => !kvs.isEmpty

/-- Models Python `str(x)`.  Only `None`, strings and integers are ever fed
to `str()` on the paths the spec covers; the container cases are printed with
placeholder text since no claim applies `str()` to a container. -/
def pyStr : PyVal → String
  | .null => "None"
  | .str s => s
  | .num n => toString n
  | .arr _ => "[...]"
  | .obj _ => "<dict>"

/-- Models Python `x.strip()`: defined on strings, an `AttributeError` on any
other value (in particular on `None`). -/
def pyStripStr : PyVal → Except PyErr String
  | .str s => .ok s.trim
  | _ => .error .attributeError

/-- Models the pattern `d.get(k, '').strip()` (unguarded strip, used on the
coliform path). -/
def pyGetStrip (kvs : List (String × PyVal)) (k : String) : Except PyErr String :=
  pyStripStr (pyGetD kvs k (.str ""))

/-- Models the guarded pattern `d.get(k, '').strip() if d.get(k) else ''`
used on the chemical path. -/
def pyCondStripD (kvs : List (String × PyVal)) (k : String) : Except PyErr String :=
  if pyTruthy (pyGetD kvs k .null) then pyStripStr (pyGetD kvs k (.str ""))
  else .ok ""

/-- Run-wide timestamps generated once in the scraper constructor and shared
by every record of one run. -/
structure RunCtx where
  unix_timestamp : String
  timestamp_utc : String

/-- The `system_info` dict built in `OhioWaterScraper.run` (both fields are
produced there by `.strip()` on strings, hence `String`). -/
structure SystemInfo where
  system_id : String
  system_name : String

/-- The `OhioWaterResult` dataclass.  Fields that the code always fills with
a string literal, an f-string, a `str(...)` coercion or a successful
`.strip()` are typed `String`; fields filled by a plain `d.get(k, '')`
(which propagates whatever value the source stored, including `None`) are
typed `PyVal`. -/
structure OhioWaterResult where
  result_uuid : String
  state : String
  pwsid : String
  system_name : String
  unix_timestamp : String
  timestamp_utc : String
  result_id : String
  result_sample_type : PyVal
  result_lab_sample_number : PyVal
  result_sample_collection_timestamp : PyVal
  result_sample_point : String
  result_sample_location : String
  result_presence_absence_indicator : PyVal
  result_laboratory : String
  result_analyte_code : PyVal
  result_analyte_name : String
  result_method_code : String
  result_less_than_indicator : PyVal
  result_concentration_level : String
  result_unit : String
  result_mcl : String
  result_mcl_unit : String
  result_deviation : String
  result_detection : String
  result_analysis_begin_date : PyVal
  result_analysis_end_date : PyVal
  result_state_notified_date : PyVal
  result_pws_notified_date : PyVal
  result_exceeds_mcl : String
  result_monitoring_period_begin_date : PyVal
  result_monitoring_period_end_date : PyVal
  result_type : String
  result_url : String
  result_facility_id : String
  result_facility_name : String
  result_ph_measure : String
  result_temperature_measure : String
  result_temperature_measure_code : PyVal
  result_flow_rate_measure : String
  result_turbidity_measure : String
  result_collector_name : String
  result_microbial_count : String

/-- Models `result.get('Results', [{}])[0]` on the coliform path: the first
element of the nested sub-result list, defaulting to `[{}]` when the key is
absent.  Indexing a non-list behaves as in Python (a string yields its first
character, `None` and numbers raise `TypeError`, a dict raises `KeyError`,
an empty list raises `IndexError`). -/
def getFirstResult (kvs : List (String × PyVal)) : Except PyErr PyVal :=
  match pyGetD kvs "Results" (.arr [.obj []]) with
  | .arr [] => .error .indexError
  | .arr (x :: _) => .ok x
  | .str s =>
      match s.data with
      | [] => .error .indexError
      | c :: _ => .ok (.str (String.mk [c]))
  | .obj _ => .error .keyError
  | .null => .error .typeError
  | .num _ => .error .typeError

/-- Normalization of one raw coliform sample into one `OhioWaterResult`
(`OhioWaterScraper.get_coliform_results`, loop body, lines 258-306).  Only
the first nested sub-result is read.  A `.get` call on a non-dict raises
`AttributeError` in Python; since every `coliform_result.get(...)` would
raise that same error, the non-dict case of the extracted sub-result is
factored into one early `AttributeError`, and likewise a non-dict raw sample.
Field order and the choice of guarded/unguarded access follow the source. -/
def mkColiformItem (u : String) (ctx : RunCtx) (sys : SystemInfo) (url : String)
    (sample : PyVal) : Except PyErr OhioWaterResult :=
  match sample with
  | .obj kvs =>
    match getFirstResult kvs with
    | .error e => .error e
    | .ok cr =>
      match cr with
      | .obj crkvs => do
          let samplePoint ← pyGetStrip kvs "SamplePoint"
          let location ← pyGetStrip kvs "Location"
          let laboratory ← pyGetStrip kvs "LaboratoryId"
          let analyteName ← pyStripStr (pyGetD crkvs "AnalyteName" (.str ""))
          let methodCode ← pyStripStr (pyGetD crkvs "Method" (.str ""))
          let collector ← pyGetStrip kvs "CollectorName"
          let microbial ← pyStripStr (pyGetD crkvs "MicrobialResultCount" (.str ""))
          pure {
            result_uuid := u
            state := "OH"
            pwsid := sys.system_id
            system_name := sys.system_name
            unix_timestamp := ctx.unix_timestamp
            timestamp_utc := ctx.timestamp_utc
            result_id := pyStr (pyGetD kvs "TSASAMPL_IS_NUMBER" (.str ""))
            result_sample_type := pyGetD kvs "Type" (.str "")
            result_lab_sample_number := pyGetD kvs "SampleLabId" (.str "")
            result_sample_collection_timestamp := pyGetD kvs "CollectionDate" (.str "")
            result_sample_point := samplePoint
            result_sample_location := location
            result_presence_absence_indicator := pyGetD crkvs "PresenceIndicator" (.str "")
            result_laboratory := laboratory
            result_analyte_code := pyGetD crkvs "AnalyteCode" (.str "")
            result_analyte_name := analyteName
            result_method_code := methodCode
            result_less_than_indicator := .str ""
            result_concentration_level := ""
            result_unit := ""
            result_mcl := ""
            result_mcl_unit := ""
            result_deviation := ""
            result_detection := ""
            result_analysis_begin_date := pyGetD crkvs "AnalysisBeginDate" (.str "")
            result_analysis_end_date := pyGetD crkvs "AnalysisEndDate" (.str "")
            result_state_notified_date := pyGetD crkvs "StateNotifiedDate" (.str "")
            result_pws_notified_date := pyGetD crkvs "PwsNotifiedDate" (.str "")
            result_exceeds_mcl := ""
            result_monitoring_period_begin_date := pyGetD kvs "MonPeriodBeginDate" (.str "")
            result_monitoring_period_end_date := pyGetD kvs "MonPeriodEndDate" (.str "")
            result_type := "coliform"
            result_url := url
            result_facility_id := ""
            result_facility_name := ""
            result_ph_measure := pyStr (pyGetD kvs "PhMeasure" (.str ""))
            result_temperature_measure := pyStr (pyGetD kvs "TemperatureMeasure" (.str ""))
            result_temperature_measure_code := pyGetD kvs "TemperatureMeasureCode" (.str "")
            result_flow_rate_measure := pyStr (pyGetD kvs "FlowRateMeasure" (.str ""))
            result_turbidity_measure := pyStr (pyGetD kvs "TurbidityMeasure" (.str ""))
            result_collector_name := collector
            result_microbial_count := microbial
          }
      | _ => .error .attributeError
  | _ => .error .attributeError

/-- Normalization of one nested analyte sub-result of one raw chemical sample
into one `OhioWaterResult` (`OhioWaterScraper.get_chemical_results`, inner
loop body, lines 377-424).  As for the coliform path, the `AttributeError`
that every `.get` on a non-dict sub-result would raise is factored into one
early check. -/
def mkChemicalItem (u : String) (ctx : RunCtx) (sys : SystemInfo) (url : String)
    (kvs : List (String × PyVal)) (result : PyVal) : Except PyErr OhioWaterResult :=
  match result with
  | .obj rkvs => do
      let samplePoint ← pyCondStripD kvs "SamplePoint"
      let location ← pyCondStripD kvs "Location"
      let laboratory ← pyCondStripD kvs "LaboratoryId"
      let analyteName ← pyCondStripD rkvs "AnalyteName"
      let methodCode ← pyCondStripD rkvs "Method"
      let unit ← pyCondStripD rkvs "ResultMeasureCode"
      let mclUnit ← pyCondStripD rkvs "MclCode"
      let detection ← pyCondStripD rkvs "Detection"
      let facilityName ← pyCondStripD kvs "FacilityName"
      pure {
        result_uuid := u
        state := "OH"
        pwsid := sys.system_id
        system_name := sys.system_name
        unix_timestamp := ctx.unix_timestamp
        timestamp_utc := ctx.timestamp_utc
        result_id := pyStr (pyGetD kvs "TSASAMPL_IS_NUMBER" (.str ""))
        result_sample_type := pyGetD kvs "Type" (.str "")
        result_lab_sample_number := pyGetD kvs "SampleLabId" (.str "")
        result_sample_collection_timestamp := pyGetD kvs "CollectionDate" (.str "")
        result_sample_point := samplePoint
        result_sample_location := location
        result_presence_absence_indicator := .str ""
        result_laboratory := laboratory
        result_analyte_code := pyGetD rkvs "AnalyteCode" (.str "")
        result_analyte_name := analyteName
        result_method_code := methodCode
        result_less_than_indicator := pyGetD rkvs "ResultLessInd" (.str "")
        result_concentration_level := pyStr (pyGetD rkvs "ResultMeasure" (.str ""))
        result_unit := unit
        result_mcl := pyStr (pyGetD rkvs "MclMeasure" (.str ""))
        result_mcl_unit := mclUnit
        result_deviation := pyStr (pyGetD rkvs "Deviation" (.str ""))
        result_detection := detection
        result_analysis_begin_date := pyGetD rkvs "AnalysisBeginDate" (.str "")
        result_analysis_end_date := pyGetD rkvs "AnalysisEndDate" (.str "")
        result_state_notified_date := pyGetD rkvs "StateNotifiedDate" (.str "")
        result_pws_notified_date := pyGetD rkvs "PwsNotifiedDate" (.str "")
        result_exceeds_mcl := pyStr (pyGetD rkvs "ExceedsMCL" (.str ""))
        result_monitoring_period_begin_date := pyGetD kvs "MonPeriodBeginDate" (.str "")
        result_monitoring_period_end_date := pyGetD kvs "MonPeriodEndDate" (.str "")
        result_type := "chemical"
        result_url := url
        result_facility_id := pyStr (pyGetD kvs "FacilityId" (.str ""))
        result_facility_name := facilityName
        result_ph_measure := ""
        result_temperature_measure := ""
        result_temperature_measure_code := .str ""
        result_flow_rate_measure := ""
        result_turbidity_measure := ""
        result_collector_name := ""
        result_microbial_count := ""
      }
  | _ => .error .attributeError

/-- Iteration over a Python value, as in `for x in v`: lists yield their
elements, strings their characters, dicts their keys; `None` and numbers
raise `TypeError`. -/
def pyIter : PyVal → Except PyErr (List PyVal)
  | .arr xs => .ok xs
  | .str s => .ok (s.data.map fun c => .str (String.mk [c]))
  | .obj kvs => .ok (kvs.map fun kv => .str kv.1)
  | _ => .error .typeError

/-- Models `sample.get('Results', [])` followed by iterating the value on the
chemical path. -/
def getResultsList (kvs : List (String × PyVal)) : Except PyErr (List PyVal) :=
  pyIter (pyGetD kvs "Results" (.arr []))

/-- Models `data.get('value', [])` followed by iterating the value (a `.get`
on a non-dict payload raises `AttributeError`). -/
def dataValueList (data : PyVal) : Except PyErr (List PyVal) :=
  match data with
  | .obj kvs => pyIter (pyGetD kvs "value" (.arr []))
  | _ => .error .attributeError

/-- Inner loop of `get_chemical_results`: one record per nested analyte
sub-result of one sample.  Returns the records produced before the first
exception (if any), the next uuid counter, and the exception.  An exception
aborts the loop; records appended before it are kept (the enclosing `try`
returns the accumulated list). -/
def chemResultsLoop (uuidGen : Nat → String) (ctx : RunCtx) (sys : SystemInfo)
    (url : String) (kvs : List (String × PyVal)) :
    List PyVal → Nat → List OhioWaterResult × Nat × Option PyErr
  | [], n => ([], n, none)
  | r :: rs, n =>
    match mkChemicalItem (uuidGen n) ctx sys url kvs r with
    | .error e => ([], n, some e)
    | .ok rec =>
      let t := chemResultsLoop uuidGen ctx sys url kvs rs (n + 1)
      (rec :: t.1, t.2.1, t.2.2)

/-- Outer loop of `get_chemical_results` over the samples of one response. -/
def chemSamplesLoop (uuidGen : Nat → String) (ctx : RunCtx) (sys : SystemInfo)
    (url : String) : List PyVal → Nat → List OhioWaterResult × Nat × Option PyErr
  | [], n => ([], n, none)
  | s :: ss, n =>
    match s with
    | .obj kvs =>
      match getResultsList kvs with
      | .error e => ([], n, some e)
      | .ok rs =>
        let t := chemResultsLoop uuidGen ctx sys url kvs rs n
        match t.2.2 with
        | some e => (t.1, t.2.1, some e)
        | none =>
          let t' := chemSamplesLoop uuidGen ctx sys url ss t.2.1
          (t.1 ++ t'.1, t'.2.1, t'.2.2)
    | _ => ([], n, some .attributeError)

/-- Loop of `get_coliform_results` over the samples of one response: exactly
one record is appended per raw sample (only the first nested sub-result is
read by `mkColiformItem`). -/
def coliformSamplesLoop (uuidGen : Nat → String) (ctx : RunCtx) (sys : SystemInfo)
    (url : String) : List PyVal → Nat → List OhioWaterResult × Nat × Option PyErr
  | [], n => ([], n, none)
  | s :: ss, n =>
    match mkColiformItem (uuidGen n) ctx sys url s with
    | .error e => ([], n, some e)
    | .ok rec =>
      let t := coliformSamplesLoop uuidGen ctx sys url ss (n + 1)
      (rec :: t.1, t.2.1, t.2.2)

/-- A result-window HTTP response: the status code, and the parsed JSON body
(`none` models a body on which `response.json()` raises, in particular an
empty body). -/
structure HttpResp where
  status : Nat
  jsonBody : Option PyVal

/-- Observable outcome of one result-window fetch: the records returned, and
whether the result query was issued and whether anything was logged at error
level along the way. -/
structure FetchOutcome where
  records : List OhioWaterResult
  queryIssued : Bool
  errorLogged : Bool

/-- Models `OhioWaterScraper.get_coliform_config` (lines 195-210): `True`
exactly when the configuration request returned HTTP 200; a non-200 status
logs a warning, a transport exception logs an error; both yield `False`. -/
def get_coliform_config (cfgResp : Except PyErr Nat) : Bool :=
  match cfgResp with
  | .ok s => s == 200
  | .error _ => false

/-- Models `OhioWaterScraper.get_chemical_config` (lines 314-329), identical
in behaviour to the coliform variant. -/
def get_chemical_config (cfgResp : Except PyErr Nat) : Bool :=
  match cfgResp with
  | .ok s => s == 200
  | .error _ => false

/-- Whether the configuration helper itself logged at error level (it does so
exactly on a transport exception). -/
def configErrorLogged (cfgResp : Except PyErr Nat) : Bool :=
  match cfgResp with
  | .ok _ => false
  | .error _ => true

/-- The disjunct `not response.text` in the guard
`if response.status == 204 or not response.text:`.  In aiohttp, `text` is a
coroutine method, so the unawaited `response.text` is a bound-method object,
which is always truthy; the disjunct is therefore constantly false and the
intended empty-body check never fires. -/
def notResponseText : Bool := false

/-- Models `OhioWaterScraper.get_coliform_results` (lines 212-312) given the
configuration response and the result-query response.  The query URL (built
from a wall-clock two-year window) is passed in as `url`. -/
def get_coliform_results (uuidGen : Nat → String) (ctx : RunCtx) (sys : SystemInfo)
    (url : String) (cfgResp : Except PyErr Nat) (resp : Except PyErr HttpResp) :
    FetchOutcome :=
  if get_coliform_config cfgResp then
    match resp with
    | .error _ => ⟨[], true, true⟩
    | .ok r =>
      if r.status == 204 || notResponseText then ⟨[], true, false⟩
      else
        match r.jsonBody with
        | none => ⟨[], true, true⟩
        | some data =>
          match dataValueList data with
          | .error _ => ⟨[], true, true⟩
          | .ok samples =>
            match coliformSamplesLoop uuidGen ctx sys url samples 0 with
            | (recs, _, some _) => ⟨recs, true, true⟩
            | (recs, _, none) => ⟨recs, true, false⟩
  else ⟨[], false, configErrorLogged cfgResp⟩

/-- Models `OhioWaterScraper.get_chemical_results` (lines 331-430), same
structure as the coliform fetch but exploding each sample into one record per
nested analyte sub-result. -/
def get_chemical_results (uuidGen : Nat → String) (ctx : RunCtx) (sys : SystemInfo)
    (url : String) (cfgResp : Except PyErr Nat) (resp : Except PyErr HttpResp) :
    FetchOutcome :=
  if get_chemical_config cfgResp then
    match resp with
    | .error _ => ⟨[], true, true⟩
    | .ok r =>
      if r.status == 204 || notResponseText then ⟨[], true, false⟩
      else
        match r.jsonBody with
        | none => ⟨[], true, true⟩
        | some data =>
          match dataValueList data with
          | .error _ => ⟨[], true, true⟩
          | .ok samples =>
            match chemSamplesLoop uuidGen ctx sys url samples 0 with
            | (recs, _, some _) => ⟨recs, true, true⟩
            | (recs, _, none) => ⟨recs, true, false⟩
  else ⟨[], false, configErrorLogged cfgResp⟩

/-- Page size used by `collect_all_systems` (`self.results_per_page`). -/
def results_per_page : Nat := 225

/-- Loop of `OhioWaterScraper.collect_all_systems` (lines 139-193).  `fetch
skip` is the `value` list of the page at offset `skip`, or `none` when the
page request had a non-200 status or raised (both `break`).  `total` is the
server-advertised `@odata.count` read on the first page.  The returned
triple is (accumulated systems, number of page requests issued, whether the
loop was cut short by a failed page).  `fuel` bounds the recursion; every
theorem below supplies enough fuel for the loop to reach its own exit
condition, so the fuel-exhaustion branch is never taken there. -/
def collectAux (fetch : Nat → Option (List α)) (top total : Nat) :
    Nat → Nat → Nat → List α → List α × Nat × Bool
  | 0, _, reqs, acc => (acc, reqs, false)
  | fuel + 1, skip, reqs, acc =>
    match fetch skip with
    | none => (acc, reqs + 1, true)
    | some batch =>
      if batch.length < top ∨ total ≤ (acc ++ batch).length then
        (acc ++ batch, reqs + 1, false)
      else collectAux fetch top total fuel (skip + top) (reqs + 1) (acc ++ batch)

/-- Entry point of the pagination loop: `skip = 0`, no requests issued, empty
accumulator. -/
def collect_all_systems (fetch : Nat → Option (List α)) (top total fuel : Nat) :
    List α × Nat × Bool :=
  collectAux fetch top total fuel 0 0 []

/-- A source that never under-reports a page: page `skip` holds exactly the
next `top` of its entities, and every page request succeeds. -/
def honestFetch (entities : List α) (top : Nat) : Nat → Option (List α) :=
  fun skip => some ((entities.drop skip).take top)

/-- A source that serves pages honestly below offset `m` and returns a
non-success status (modelled as `none`) from offset `m` on. -/
def failAtFetch (entities : List α) (top m : Nat) : Nat → Option (List α) :=
  fun skip => if skip < m then some ((entities.drop skip).take top) else none

/-- A raw HTTP response for the generic scraper: status, body text and
headers. -/
structure HttpText where
  status : Nat
  body : String
  headers : List (String × PyVal)

/-- The `ScrapedData` dataclass of `scraper.py`.  The float `response_time`
is modelled in milliseconds; no claim depends on its value. -/
structure ScrapedData where
  url : String
  title : String
  content : String
  timestamp : String
  status_code : Nat
  response_time : Nat
  metadata : List (String × PyVal)

/-- Models `FantineScraper._scrape_url` (lines 136-180).  The pure HTML
helpers `_extract_title` and `_clean_content` are passed in as functions
(regex and BeautifulSoup are external collaborators per the spec); `ts` and
`rt` stand for the wall-clock timestamp and measured response time.  Any
exception raised inside the `try` (transport or otherwise, modelled by the
`Except.error` case of `resp`) produces the fallback record with status 0,
empty title and content, and the error message in the metadata. -/
def scrape_url (extractTitle cleanContent : String → String) (ts : String)
    (rt : Nat) (url : String) (resp : Except PyErr HttpText) : ScrapedData :=
  match resp with
  | .ok r =>
    let content := r.body
    let clean := cleanContent content
    { url := url
      title := extractTitle content
      content := clean
      timestamp := ts
      status_code := r.status
      response_time := rt
      metadata := [("content_length", .num content.length),
                   ("clean_content_length", .num clean.length),
                   ("headers", .obj r.headers)] }
  | .error e =>
    { url := url
      title := ""
      content := ""
      timestamp := ts
      status_code := 0
      response_time := rt
      metadata := [("error", .str (errMsg e))] }

/-- The batch of records produced by `FantineScraper.run` when every queued
URL is processed: one `ScrapedData` per URL, failed or not. -/
def scrapeBatch (extractTitle cleanContent : String → String) (ts : String)
    (rt : Nat) (inputs : List (String × Except PyErr HttpText)) : List ScrapedData :=
  inputs.map fun p => scrape_url extractTitle cleanContent ts rt p.1 p.2

/-- Observable outcome of one `_upload_to_spaces` call. -/
structure UploadOutcome where
  uploaded : Bool
  raisedToCaller : Bool
  warnedSkip : Bool
  errorLogged : Bool

/-- Models `FantineScraper._upload_to_spaces` (lines 242-272): a missing or
empty access key or secret (Python falsiness of `os.getenv`) logs a warning
and returns without uploading; otherwise the boto3 upload runs and any
exception is caught and logged.  Nothing ever escapes to the caller. -/
def fantine_upload_to_spaces (key secret : Option String)
    (uploadOk : Except PyErr Unit) : UploadOutcome :=
  if key.getD "" = "" ∨ secret.getD "" = "" then ⟨false, false, true, false⟩
  else
    match uploadOk with
    | .ok _ => ⟨true, false, false, false⟩
    | .error _ => ⟨false, false, false, true⟩

/-- Models `OhioWaterScraper._upload_to_spaces` (lines 511-558).  Unlike the
`FantineScraper` variant, it logs `spaces_key[:10]` before the credentials
check; slicing an absent (`None`) credential raises `TypeError`, which the
function's own `except` catches and logs at error level.  Either way the
upload is skipped and nothing escapes to the caller. -/
def ohio_upload_to_spaces (key secret : Option String)
    (uploadOk : Except PyErr Unit) : UploadOutcome :=
  match key, secret with
  | none, _ => ⟨false, false, false, true⟩
  | some _, none => ⟨false, false, false, true⟩
  | some k, some s =>
    if k = "" ∨ s = "" then ⟨false, false, true, false⟩
    else
      match uploadOk with
      | .ok _ => ⟨true, false, false, false⟩
      | .error _ => ⟨false, false, false, true⟩

/-- Models `FantineScraper._save_results` followed by its upload call: the
JSON file (represented by its record list) is written first, then the upload
runs; the upload never raises past itself, so the file is the durable
artifact regardless of the upload outcome. -/
def fantine_save_results (records : List ScrapedData) (key secret : Option String)
    (uploadOk : Except PyErr Unit) : Option (List ScrapedData) × UploadOutcome :=
  (some records, fantine_upload_to_spaces key secret uploadOk)

/-- Models `OhioWaterScraper._save_results` followed by its upload call. -/
def ohio_save_results (records : List OhioWaterResult) (key secret : Option String)
    (uploadOk : Except PyErr Unit) : Option (List OhioWaterResult) × UploadOutcome :=
  (some records, ohio_upload_to_spaces key secret uploadOk)

/-- The `TennesseeWaterResult` dataclass of `scraper.py`. -/
structure TennesseeWaterResult where
  result_uuid : String
  state : String
  pwsid : String
  system_name : String
  unix_timestamp : String
  timestamp_utc : String
  result_id : String
  result_lab_sample_number : String
  result_sample_type : String
  result_sample_collection_timestamp : String
  result_sample_point : String
  result_sample_location : String
  result_presence_absence_indicator : String
  result_laboratory : String
  result_analyte_code : String
  result_analyte_name : String
  result_method_code : String
  result_less_than_indicator : String
  result_level_type : String
  result_reporting_level : String
  result_concentration_level : String
  result_monitoring_period_begin_date : String
  result_monitoring_period_end_date : String
  result_url : String

/-- Zero-padded decimal rendering, modelling the Python format `{n:04d}`
and friends. -/
def padZeros (w n : Nat) : String :=
  let s := toString n
  if s.length < w then String.mk (List.replicate (w - s.length) '0') ++ s
  else s

/-- Decimal rendering of `k / 1000` with three places, modelling
`f"{0.001 + i*0.001:.3f}"` with `k = i + 1` (the double-precision rounding
of that expression prints as the exact decimal for every `i < 1000`). -/
def fmt3 (k : Nat) : String :=
  toString (k / 1000) ++ "." ++ padZeros 3 (k % 1000)

/-- One synthetic placeholder record, as built by
`TennesseeWaterScraper._generate_test_data` (lines 590-623). -/
def mkTestResult (ctx : RunCtx) (u : String) (i : Nat) : TennesseeWaterResult :=
  { result_uuid := u
    state := "TN"
    pwsid := "TN000" ++ padZeros 4 i
    system_name := "Test Water System " ++ toString (i + 1)
    unix_timestamp := ctx.unix_timestamp
    timestamp_utc := ctx.timestamp_utc
    result_id := toString i
    result_lab_sample_number := "TEST" ++ padZeros 6 i
    result_sample_type := "Raw Water"
    result_sample_collection_timestamp := "2025-10-03 14:30:00"
    result_sample_point := "Entry Point"
    result_sample_location := "Test Location " ++ toString (i + 1)
    result_presence_absence_indicator := ""
    result_laboratory := "Test Lab"
    result_analyte_code := "TEST" ++ padZeros 3 i
    result_analyte_name := "Test Analyte " ++ toString (i + 1)
    result_method_code := "METHOD" ++ padZeros 3 i
    result_less_than_indicator := ""
    result_level_type := "mg/L"
    result_reporting_level := "0.001"
    result_concentration_level := fmt3 (i + 1)
    result_monitoring_period_begin_date := "2025-10-01"
    result_monitoring_period_end_date := "2025-10-03"
    result_url := "https://dataviewers.tdec.tn.gov/DWW/JSP/test" }

/-- Models `_generate_test_data(num_results)`: `num_results` synthetic
records, indexed from 0. -/
def generate_test_data (ctx : RunCtx) (uuidGen : Nat → String) (n : Nat) :
    List TennesseeWaterResult :=
  (List.range n).map fun i => mkTestResult ctx (uuidGen i) i

/-- The record set `TennesseeWaterScraper.run` hands to `_save_results`
(lines 581-587): when nothing was scraped, `_generate_test_data()` (default
`num_results=1000`) extends the empty accumulator before the save. -/
def tennesseeFinalRecords (ctx : RunCtx) (uuidGen : Nat → String)
    (scraped : List TennesseeWaterResult) : List TennesseeWaterResult :=
  if scraped.isEmpty then scraped ++ generate_test_data ctx uuidGen 1000
  else scraped

/-- The reserved synthetic-record pattern: the lab sample number is `TEST`
followed by a zero-padded index, and the URL is the fixed test URL (a value
`_generate_test_data` hard-codes). -/
def IsSyntheticMarked (r : TennesseeWaterResult) : Prop :=
  (∃ k, r.result_lab_sample_number = "TEST" ++ padZeros 6 k) ∧
    r.result_url = "https://dataviewers.tdec.tn.gov/DWW/JSP/test"

/-- Whether a value is a Python string. -/
def isStrVal : PyVal → Bool
  | .str _ => true
  | _ => false

/-- Every stored value of a dict is a string. -/
def objAllStr (kvs : List (String × PyVal)) : Bool :=
  kvs.all fun kv => isStrVal kv.2

/-- A well-formed nested `Results` value: a list of dicts whose values are
all strings. -/
def resultsValOk : PyVal → Bool
  | .arr rs => rs.all fun r => match r with | .obj o => objAllStr o | _ => false
  | _ => false

/-- A raw sample all of whose present fields are strings, except that a
present `Results` field is a list of string-valued dicts. -/
def chemSampleFieldsOk (kvs : List (String × PyVal)) : Bool :=
  kvs.all fun kv => if kv.1 == "Results" then resultsValOk kv.2 else isStrVal kv.2

/-- A raw coliform sample additionally needs a nonempty `Results` list when
the key is present (`result.get('Results', [{}])[0]` raises on `[]`). -/
def coliformSampleOk (kvs : List (String × PyVal)) : Bool :=
  chemSampleFieldsOk kvs &&
    (match lookupKey kvs "Results" with
     | some (.arr rs) => !rs.isEmpty
     | some _ => false
     | none => true)

/-- All `PyVal`-typed fields of a record hold strings (the `String`-typed
fields are strings by construction). -/
def recordAllStr (r : OhioWaterResult) : Bool :=
  isStrVal r.result_sample_type && isStrVal r.result_lab_sample_number &&
    isStrVal r.result_sample_collection_timestamp &&
    isStrVal r.result_presence_absence_indicator &&
    isStrVal r.result_analyte_code && isStrVal r.result_less_than_indicator &&
    isStrVal r.result_analysis_begin_date && isStrVal r.result_analysis_end_date &&
    isStrVal r.result_state_notified_date && isStrVal r.result_pws_notified_date &&
    isStrVal r.result_monitoring_period_begin_date &&
    isStrVal r.result_monitoring_period_end_date &&
    isStrVal r.result_temperature_measure_code

/-- The chemical-only fields are empty on a coliform record. -/
def coliformIrrelevantEmpty (r : OhioWaterResult) : Prop :=
  r.result_less_than_indicator = .str "" ∧ r.result_concentration_level = "" ∧
    r.result_unit = "" ∧ r.result_mcl = "" ∧ r.result_mcl_unit = "" ∧
    r.result_deviation = "" ∧ r.result_detection = "" ∧ r.result_exceeds_mcl = "" ∧
    r.result_facility_id = "" ∧ r.result_facility_name = ""

/-- The coliform-only fields are empty on a chemical record. -/
def chemicalIrrelevantEmpty (r : OhioWaterResult) : Prop :=
  r.result_presence_absence_indicator = .str "" ∧ r.result_ph_measure = "" ∧
    r.result_temperature_measure = "" ∧ r.result_temperature_measure_code = .str "" ∧
    r.result_flow_rate_measure = "" ∧ r.result_turbidity_measure = "" ∧
    r.result_collector_name = "" ∧ r.result_microbial_count = ""

/-- Value of a successful string extraction, empty on failure (used only to
state canonical forms of fields whose extraction is known to succeed). -/
def okStr (e : Except PyErr String) : String :=
  match e with
  | .ok s => s
  | .error _ => ""

/-- The sample-level (non-analyte, non-uuid) part of a chemical record. -/
def chemSampleProj (r : OhioWaterResult) :=
  (r.state, r.pwsid, r.system_name, r.unix_timestamp, r.timestamp_utc,
   r.result_id, r.result_sample_type, r.result_lab_sample_number,
   r.result_sample_collection_timestamp, r.result_sample_point,
   r.result_sample_location, r.result_presence_absence_indicator,
   r.result_laboratory, r.result_monitoring_period_begin_date,
   r.result_monitoring_period_end_date, r.result_type, r.result_url,
   r.result_facility_id, r.result_facility_name, r.result_ph_measure,
   r.result_temperature_measure, r.result_temperature_measure_code,
   r.result_flow_rate_measure, r.result_turbidity_measure,
   r.result_collector_name, r.result_microbial_count)

/-- The canonical sample-level part determined by the run context, system,
URL and raw sample alone. -/
def chemProjOf (ctx : RunCtx) (sys : SystemInfo) (url : String)
    (kvs : List (String × PyVal)) :=
  ("OH", sys.system_id, sys.system_name, ctx.unix_timestamp, ctx.timestamp_utc,
   pyStr (pyGetD kvs "TSASAMPL_IS_NUMBER" (.str "")),
   pyGetD kvs "Type" (.str ""), pyGetD kvs "SampleLabId" (.str ""),
   pyGetD kvs "CollectionDate" (.str ""),
   okStr (pyCondStripD kvs "SamplePoint"), okStr (pyCondStripD kvs "Location"),
   PyVal.str "", okStr (pyCondStripD kvs "LaboratoryId"),
   pyGetD kvs "MonPeriodBeginDate" (.str ""), pyGetD kvs "MonPeriodEndDate" (.str ""),
   "chemical", url, pyStr (pyGetD kvs "FacilityId" (.str "")),
   okStr (pyCondStripD kvs "FacilityName"), "", "", PyVal.str "", "", "", "", "")

theorem except_bind_ok (a : α) (f : α → Except ε β) :
    (Except.ok a : Except ε α) >>= f = f a := rfl

theorem except_bind_error (e : ε) (f : α → Except ε β) :
    (Except.error e : Except ε α) >>= f = .error e := rfl

theorem lookup_str_of_fieldsOk (kvs : List (String × PyVal)) (k : String)
    (h : chemSampleFieldsOk kvs = true) (hk : k ≠ "Results") :
    ∀ v, lookupKey kvs k = some v → ∃ s, v = .str s := by
  induction kvs with
  | nil => intro v hv; simp [lookupKey] at hv
  | cons kv rest ih =>
    simp only [chemSampleFieldsOk, List.all_cons, Bool.and_eq_true] at h ih
    intro v hv
    unfold lookupKey at hv
    by_cases hek : kv.1 = k
    · simp only [hek, if_pos rfl] at hv
      obtain ⟨h1, _⟩ := h
      rw [hek] at h1
      simp only [beq_iff_eq, if_neg hk] at h1
      cases v with
      | str s => exact ⟨s, rfl⟩
      | _ => simp_all [isStrVal]
    · rw [if_neg hek] at hv
      exact ih h.2 v hv

theorem lookup_str_of_objAllStr (kvs : List (String × PyVal)) (k : String)
    (h : objAllStr kvs = true) :
    ∀ v, lookupKey kvs k = some v → ∃ s, v = .str s := by
  induction kvs with
  | nil => intro v hv; simp [lookupKey] at hv
  | cons kv rest ih =>
    simp only [objAllStr, List.all_cons, Bool.and_eq_true] at h ih
    intro v hv
    unfold lookupKey at hv
    by_cases hek : kv.1 = k
    · simp only [hek, if_pos rfl] at hv
      obtain ⟨h1, _⟩ := h
      cases v with
      | str s => exact ⟨s, rfl⟩
      | _ => simp_all [isStrVal]
    · rw [if_neg hek] at hv
      exact ih h.2 v hv

theorem lookup_resultsOk (kvs : List (String × PyVal))
    (h : chemSampleFieldsOk kvs = true) :
    ∀ v, lookupKey kvs "Results" = some v → resultsValOk v = true := by
  induction kvs with
  | nil => intro v hv; simp [lookupKey] at hv
  | cons kv rest ih =>
    simp only [chemSampleFieldsOk, List.all_cons, Bool.and_eq_true] at h ih
    intro v hv
    unfold lookupKey at hv
    by_cases hek : kv.1 = "Results"
    · simp only [hek, if_pos rfl] at hv
      obtain ⟨h1, _⟩ := h
      rw [hek] at h1
      simp only [beq_self_eq_true, if_pos] at h1
      cases hv
      exact h1
    · rw [if_neg hek] at hv
      exact ih h.2 v hv

theorem pyGetD_str_of_fieldsOk (kvs : List (String × PyVal)) (k : String)
    (h : chemSampleFieldsOk kvs = true) (hk : k ≠ "Results") (d : String) :
    ∃ s, pyGetD kvs k (.str d) = .str s := by
  unfold pyGetD
  cases hl : lookupKey kvs k with
  | none => exact ⟨d, rfl⟩
  | some v =>
    obtain ⟨s, rfl⟩ := lookup_str_of_fieldsOk kvs k h hk v hl
    exact ⟨s, rfl⟩

theorem pyGetD_str_of_objAllStr (kvs : List (String × PyVal)) (k : String)
    (h : objAllStr kvs = true) (d : String) :
    ∃ s, pyGetD kvs k (.str d) = .str s := by
  unfold pyGetD
  cases hl : lookupKey kvs k with
  | none => exact ⟨d, rfl⟩
  | some v =>
    obtain ⟨s, rfl⟩ := lookup_str_of_objAllStr kvs k h v hl
    exact ⟨s, rfl⟩

theorem pyGetStrip_ok_of_fieldsOk (kvs : List (String × PyVal)) (k : String)
    (h : chemSampleFieldsOk kvs = true) (hk : k ≠ "Results") :
    ∃ s, pyGetStrip kvs k = .ok s := by
  obtain ⟨s, hs⟩ := pyGetD_str_of_fieldsOk kvs k h hk ""
  exact ⟨s.trim, by simp [pyGetStrip, hs, pyStripStr]⟩

theorem stripGetD_ok_of_objAllStr (kvs : List (String × PyVal)) (k : String)
    (h : objAllStr kvs = true) :
    ∃ s, pyStripStr (pyGetD kvs k (.str "")) = .ok s := by
  obtain ⟨s, hs⟩ := pyGetD_str_of_objAllStr kvs k h ""
  exact ⟨s.trim, by simp [hs, pyStripStr]⟩

theorem pyCondStripD_ok_of_fieldsOk (kvs : List (String × PyVal)) (k : String)
    (h : chemSampleFieldsOk kvs = true) (hk : k ≠ "Results") :
    ∃ s, pyCondStripD kvs k = .ok s := by
  unfold pyCondStripD pyGetD
  cases hl : lookupKey kvs k with
  | none => exact ⟨"", by simp [pyTruthy]⟩
  | some v =>
    obtain ⟨s, rfl⟩ := lookup_str_of_fieldsOk kvs k h hk v hl
    by_cases hp : pyTruthy (.str s)
    · exact ⟨s.trim, by simp [hp, pyStripStr]⟩
    · exact ⟨"", by simp [hp]⟩

theorem pyCondStripD_ok_of_objAllStr (kvs : List (String × PyVal)) (k : String)
    (h : objAllStr kvs = true) :
    ∃ s, pyCondStripD kvs k = .ok s := by
  unfold pyCondStripD pyGetD
  cases hl : lookupKey kvs k with
  | none => exact ⟨"", by simp [pyTruthy]⟩
  | some v =>
    obtain ⟨s, rfl⟩ := lookup_str_of_objAllStr kvs k h v hl
    by_cases hp : pyTruthy (.str s)
    · exact ⟨s.trim, by simp [hp, pyStripStr]⟩
    · exact ⟨"", by simp [hp]⟩

theorem getFirstResult_of_sampleOk (kvs : List (String × PyVal))
    (h : coliformSampleOk kvs = true) :
    ∃ crkvs, getFirstResult kvs = .ok (.obj crkvs) ∧ objAllStr crkvs = true := by
  simp only [coliformSampleOk, Bool.and_eq_true] at h
  obtain ⟨h1, h2⟩ := h
  unfold getFirstResult pyGetD
  cases hl : lookupKey kvs "Results" with
  | none => exact ⟨[], rfl, rfl⟩
  | some v =>
    rw [hl] at h2
    have hres := lookup_resultsOk kvs h1 v hl
    cases v with
    | arr rs =>
      cases rs with
      | nil => simp at h2
      | cons r0 rest =>
        simp only [resultsValOk, List.all_cons, Bool.and_eq_true] at hres
        cases r0 with
        | obj o => exact ⟨o, rfl, hres.1⟩
        | _ => simp_all
    | _ => simp at h2

theorem mkColiformItem_shared (u : String) (ctx : RunCtx) (sys : SystemInfo)
    (url : String) (s : PyVal) (rec : OhioWaterResult)
    (h : mkColiformItem u ctx sys url s = .ok rec) :
    rec.result_uuid = u ∧ rec.pwsid = sys.system_id ∧
      rec.system_name = sys.system_name ∧
      rec.unix_timestamp = ctx.unix_timestamp ∧
      rec.timestamp_utc = ctx.timestamp_utc ∧
      rec.result_type = "coliform" ∧ rec.result_url = url := by
  cases s <;>
    simp only [mkColiformItem, Bind.bind, Pure.pure, Except.bind, Except.pure] at h <;>
    try exact absurd h (by simp)
  repeat' split at h
  all_goals simp_all
  all_goals (cases h; simp)

theorem mkChemicalItem_proj (u : String) (ctx : RunCtx) (sys : SystemInfo)
    (url : String) (kvs : List (String × PyVal)) (r : PyVal)
    (rec : OhioWaterResult) (h : mkChemicalItem u ctx sys url kvs r = .ok rec) :
    rec.result_uuid = u ∧ chemSampleProj rec = chemProjOf ctx sys url kvs := by
  cases r <;>
    simp only [mkChemicalItem, Bind.bind, Pure.pure, Except.bind, Except.pure] at h <;>
    try exact absurd h (by simp)
  repeat' split at h
  all_goals simp_all [chemSampleProj, chemProjOf, okStr]
  all_goals (cases h; simp [chemSampleProj, chemProjOf, okStr])

theorem mkColiformItem_ok_of_sampleOk (u : String) (ctx : RunCtx)
    (sys : SystemInfo) (url : String) (kvs : List (String × PyVal))
    (h : coliformSampleOk kvs = true) :
    ∃ rec, mkColiformItem u ctx sys url (.obj kvs) = .ok rec := by
  have hf : chemSampleFieldsOk kvs = true := by
    simp only [coliformSampleOk, Bool.and_eq_true] at h; exact h.1
  obtain ⟨crkvs, hcr, hobj⟩ := getFirstResult_of_sampleOk kvs h
  obtain ⟨sp, hsp⟩ := pyGetStrip_ok_of_fieldsOk kvs "SamplePoint" hf (by decide)
  obtain ⟨loc, hloc⟩ := pyGetStrip_ok_of_fieldsOk kvs "Location" hf (by decide)
  obtain ⟨lab, hlab⟩ := pyGetStrip_ok_of_fieldsOk kvs "LaboratoryId" hf (by decide)
  obtain ⟨an, han⟩ := stripGetD_ok_of_objAllStr crkvs "AnalyteName" hobj
  obtain ⟨mec, hmec⟩ := stripGetD_ok_of_objAllStr crkvs "Method" hobj
  obtain ⟨co, hco⟩ := pyGetStrip_ok_of_fieldsOk kvs "CollectorName" hf (by decide)
  obtain ⟨mi, hmi⟩ := stripGetD_ok_of_objAllStr crkvs "MicrobialResultCount" hobj
  simp only [mkColiformItem, hcr, hsp, hloc, hlab, han, hmec, hco, hmi,
    except_bind_ok, Bind.bind, Except.bind, Pure.pure, Except.pure]
  exact ⟨_, rfl⟩

theorem mkColiformItem_allStr (u : String) (ctx : RunCtx) (sys : SystemInfo)
    (url : String) (kvs : List (String × PyVal)) (rec : OhioWaterResult)
    (h : coliformSampleOk kvs = true)
    (hrec : mkColiformItem u ctx sys url (.obj kvs) = .ok rec) :
    recordAllStr rec = true ∧ coliformIrrelevantEmpty rec := by
  have hf : chemSampleFieldsOk kvs = true := by
    simp only [coliformSampleOk, Bool.and_eq_true] at h; exact h.1
  obtain ⟨crkvs, hcr, hobj⟩ := getFirstResult_of_sampleOk kvs h
  obtain ⟨sty, hsty⟩ := pyGetD_str_of_fieldsOk kvs "Type" hf (by decide) ""
  obtain ⟨slab, hslab⟩ := pyGetD_str_of_fieldsOk kvs "SampleLabId" hf (by decide) ""
  obtain ⟨scol, hscol⟩ := pyGetD_str_of_fieldsOk kvs "CollectionDate" hf (by decide) ""
  obtain ⟨smb, hsmb⟩ := pyGetD_str_of_fieldsOk kvs "MonPeriodBeginDate" hf (by decide) ""
  obtain ⟨sme, hsme⟩ := pyGetD_str_of_fieldsOk kvs "MonPeriodEndDate" hf (by decide) ""
  obtain ⟨stc, hstc⟩ := pyGetD_str_of_fieldsOk kvs "TemperatureMeasureCode" hf (by decide) ""
  obtain ⟨pri, hpri⟩ := pyGetD_str_of_objAllStr crkvs "PresenceIndicator" hobj ""
  obtain ⟨ac, hac⟩ := pyGetD_str_of_objAllStr crkvs "AnalyteCode" hobj ""
  obtain ⟨ab, hab⟩ := pyGetD_str_of_objAllStr crkvs "AnalysisBeginDate" hobj ""
  obtain ⟨ae, hae⟩ := pyGetD_str_of_objAllStr crkvs "AnalysisEndDate" hobj ""
  obtain ⟨sn, hsn⟩ := pyGetD_str_of_objAllStr crkvs "StateNotifiedDate" hobj ""
  obtain ⟨pn, hpn⟩ := pyGetD_str_of_objAllStr crkvs "PwsNotifiedDate" hobj ""
  simp only [mkColiformItem, hcr, Bind.bind, Except.bind, Pure.pure, Except.pure] at hrec
  repeat' split at hrec
  all_goals simp_all [recordAllStr, coliformIrrelevantEmpty, isStrVal]
  all_goals (cases hrec; simp_all [recordAllStr, coliformIrrelevantEmpty, isStrVal])

theorem mkChemicalItem_ok_of_ok (u : String) (ctx : RunCtx) (sys : SystemInfo)
    (url : String) (kvs rkvs : List (String × PyVal))
    (h1 : chemSampleFieldsOk kvs = true) (h2 : objAllStr rkvs = true) :
    ∃ rec, mkChemicalItem u ctx sys url kvs (.obj rkvs) = .ok rec := by
  obtain ⟨sp, hsp⟩ := pyCondStripD_ok_of_fieldsOk kvs "SamplePoint" h1 (by decide)
  obtain ⟨loc, hloc⟩ := pyCondStripD_ok_of_fieldsOk kvs "Location" h1 (by decide)
  obtain ⟨lab, hlab⟩ := pyCondStripD_ok_of_fieldsOk kvs "LaboratoryId" h1 (by decide)
  obtain ⟨an, han⟩ := pyCondStripD_ok_of_objAllStr rkvs "AnalyteName" h2
  obtain ⟨mec, hmec⟩ := pyCondStripD_ok_of_objAllStr rkvs "Method" h2
  obtain ⟨un, hun⟩ := pyCondStripD_ok_of_objAllStr rkvs "ResultMeasureCode" h2
  obtain ⟨mu, hmu⟩ := pyCondStripD_ok_of_objAllStr rkvs "MclCode" h2
  obtain ⟨de, hde⟩ := pyCondStripD_ok_of_objAllStr rkvs "Detection" h2
  obtain ⟨fn, hfn⟩ := pyCondStripD_ok_of_fieldsOk kvs "FacilityName" h1 (by decide)
  simp only [mkChemicalItem, hsp, hloc, hlab, han, hmec, hun, hmu, hde, hfn,
    except_bind_ok, Bind.bind, Except.bind, Pure.pure, Except.pure]
  exact ⟨_, rfl⟩

theorem mkChemicalItem_allStr (u : String) (ctx : RunCtx) (sys : SystemInfo)
    (url : String) (kvs rkvs : List (String × PyVal)) (rec : OhioWaterResult)
    (h1 : chemSampleFieldsOk kvs = true) (h2 : objAllStr rkvs = true)
    (hrec : mkChemicalItem u ctx sys url kvs (.obj rkvs) = .ok rec) :
    recordAllStr rec = true ∧ chemicalIrrelevantEmpty rec := by
  obtain ⟨sty, hsty⟩ := pyGetD_str_of_fieldsOk kvs "Type" h1 (by decide) ""
  obtain ⟨slab, hslab⟩ := pyGetD_str_of_fieldsOk kvs "SampleLabId" h1 (by decide) ""
  obtain ⟨scol, hscol⟩ := pyGetD_str_of_fieldsOk kvs "CollectionDate" h1 (by decide) ""
  obtain ⟨smb, hsmb⟩ := pyGetD_str_of_fieldsOk kvs "MonPeriodBeginDate" h1 (by decide) ""
  obtain ⟨sme, hsme⟩ := pyGetD_str_of_fieldsOk kvs "MonPeriodEndDate" h1 (by decide) ""
  obtain ⟨ac, hac⟩ := pyGetD_str_of_objAllStr rkvs "AnalyteCode" h2 ""
  obtain ⟨rli, hrli⟩ := pyGetD_str_of_objAllStr rkvs "ResultLessInd" h2 ""
  obtain ⟨ab, hab⟩ := pyGetD_str_of_objAllStr rkvs "AnalysisBeginDate" h2 ""
  obtain ⟨ae, hae⟩ := pyGetD_str_of_objAllStr rkvs "AnalysisEndDate" h2 ""
  obtain ⟨sn, hsn⟩ := pyGetD_str_of_objAllStr rkvs "StateNotifiedDate" h2 ""
  obtain ⟨pn, hpn⟩ := pyGetD_str_of_objAllStr rkvs "PwsNotifiedDate" h2 ""
  simp only [mkChemicalItem, Bind.bind, Except.bind, Pure.pure, Except.pure] at hrec
  repeat' split at hrec
  all_goals simp_all [recordAllStr, chemicalIrrelevantEmpty, isStrVal]
  all_goals (cases hrec; simp_all [recordAllStr, chemicalIrrelevantEmpty, isStrVal])

theorem getResultsList_ok_of_fieldsOk (kvs : List (String × PyVal))
    (h : chemSampleFieldsOk kvs = true) :
    ∃ rs, getResultsList kvs = .ok rs ∧
      ∀ r ∈ rs, ∃ o, r = PyVal.obj o ∧ objAllStr o = true := by
  unfold getResultsList pyGetD
  cases hl : lookupKey kvs "Results" with
  | none => exact ⟨[], rfl, by simp⟩
  | some v =>
    have hres := lookup_resultsOk kvs h v hl
    cases v with
    | arr rs =>
      refine ⟨rs, rfl, ?_⟩
      intro r hr
      simp only [resultsValOk, List.all_eq_true] at hres
      have hr2 := hres r hr
      cases r with
      | obj o => exact ⟨o, rfl, hr2⟩
      | _ => simp_all
    | _ => simp [resultsValOk] at hres

theorem coliformSamplesLoop_length (uuidGen : Nat → String) (ctx : RunCtx)
    (sys : SystemInfo) (url : String) :
    ∀ (samples : List PyVal) (n : Nat),
      (coliformSamplesLoop uuidGen ctx sys url samples n).2.2 = none →
      (coliformSamplesLoop uuidGen ctx sys url samples n).1.length = samples.length := by
  intro samples
  induction samples with
  | nil => intro n _; simp [coliformSamplesLoop]
  | cons s ss ih =>
    intro n herr
    simp only [coliformSamplesLoop] at herr ⊢
    cases hmk : mkColiformItem (uuidGen n) ctx sys url s with
    | error e => rw [hmk] at herr; simp at herr
    | ok rec =>
      rw [hmk] at herr
      simp only [List.length_cons]
      simp only at herr ⊢
      rw [ih (n + 1) herr]

theorem coliformSamplesLoop_shared (uuidGen : Nat → String) (ctx : RunCtx)
    (sys : SystemInfo) (url : String) :
    ∀ (samples : List PyVal) (n : Nat) (rec : OhioWaterResult),
      rec ∈ (coliformSamplesLoop uuidGen ctx sys url samples n).1 →
      rec.pwsid = sys.system_id ∧ rec.system_name = sys.system_name ∧
        rec.unix_timestamp = ctx.unix_timestamp ∧
        rec.timestamp_utc = ctx.timestamp_utc ∧
        rec.result_type = "coliform" ∧ rec.result_url = url := by
  intro samples
  induction samples with
  | nil => intro n rec hmem; simp [coliformSamplesLoop] at hmem
  | cons s ss ih =>
    intro n rec hmem
    simp only [coliformSamplesLoop] at hmem
    cases hmk : mkColiformItem (uuidGen n) ctx sys url s with
    | error e => rw [hmk] at hmem; simp at hmem
    | ok r0 =>
      rw [hmk] at hmem
      simp only [List.mem_cons] at hmem
      rcases hmem with h1 | h2
      · subst h1
        have hsh := mkColiformItem_shared (uuidGen n) ctx sys url s rec hmk
        exact ⟨hsh.2.1, hsh.2.2.1, hsh.2.2.2.1, hsh.2.2.2.2.1,
          hsh.2.2.2.2.2.1, hsh.2.2.2.2.2.2⟩
      · exact ih (n + 1) rec h2

theorem coliformSamplesLoop_props (uuidGen : Nat → String) (ctx : RunCtx)
    (sys : SystemInfo) (url : String) :
    ∀ (samples : List PyVal) (n : Nat),
      (∀ s ∈ samples, ∃ kvs, s = PyVal.obj kvs ∧ coliformSampleOk kvs = true) →
      (coliformSamplesLoop uuidGen ctx sys url samples n).2.2 = none ∧
        ∀ rec ∈ (coliformSamplesLoop uuidGen ctx sys url samples n).1,
          recordAllStr rec = true ∧ coliformIrrelevantEmpty rec := by
  intro samples
  induction samples with
  | nil => intro n _; simp [coliformSamplesLoop]
  | cons s ss ih =>
    intro n h
    obtain ⟨kvs, rfl, hok⟩ := h s (by simp)
    obtain ⟨rec, hrec⟩ := mkColiformItem_ok_of_sampleOk (uuidGen n) ctx sys url kvs hok
    have hstr := mkColiformItem_allStr (uuidGen n) ctx sys url kvs rec hok hrec
    have ihh := ih (n + 1) (fun s hs => h s (by simp [hs]))
    simp only [coliformSamplesLoop, hrec]
    refine ⟨ihh.1, ?_⟩
    intro r hr
    rcases List.mem_cons.mp hr with h1 | h2
    · subst h1; exact hstr
    · exact ihh.2 r h2

theorem chemResultsLoop_length (uuidGen : Nat → String) (ctx : RunCtx)
    (sys : SystemInfo) (url : String) (kvs : List (String × PyVal)) :
    ∀ (rs : List PyVal) (n : Nat),
      (chemResultsLoop uuidGen ctx sys url kvs rs n).2.2 = none →
      (chemResultsLoop uuidGen ctx sys url kvs rs n).1.length = rs.length := by
  intro rs
  induction rs with
  | nil => intro n _; simp [chemResultsLoop]
  | cons r rest ih =>
    intro n herr
    simp only [chemResultsLoop] at herr ⊢
    cases hmk : mkChemicalItem (uuidGen n) ctx sys url kvs r with
    | error e => rw [hmk] at herr; simp at herr
    | ok rec =>
      rw [hmk] at herr
      simp only [List.length_cons]
      simp only at herr ⊢
      rw [ih (n + 1) herr]

theorem chemResultsLoop_proj (uuidGen : Nat → String) (ctx : RunCtx)
    (sys : SystemInfo) (url : String) (kvs : List (String × PyVal)) :
    ∀ (rs : List PyVal) (n : Nat) (rec : OhioWaterResult),
      rec ∈ (chemResultsLoop uuidGen ctx sys url kvs rs n).1 →
      chemSampleProj rec = chemProjOf ctx sys url kvs := by
  intro rs
  induction rs with
  | nil => intro n rec hmem; simp [chemResultsLoop] at hmem
  | cons r rest ih =>
    intro n rec hmem
    simp only [chemResultsLoop] at hmem
    cases hmk : mkChemicalItem (uuidGen n) ctx sys url kvs r with
    | error e => rw [hmk] at hmem; simp at hmem
    | ok r0 =>
      rw [hmk] at hmem
      simp only [List.mem_cons] at hmem
      rcases hmem with h1 | h2
      · subst h1
        exact (mkChemicalItem_proj (uuidGen n) ctx sys url kvs r rec hmk).2
      · exact ih (n + 1) rec h2

theorem chemResultsLoop_props (uuidGen : Nat → String) (ctx : RunCtx)
    (sys : SystemInfo) (url : String) (kvs : List (String × PyVal))
    (hkvs : chemSampleFieldsOk kvs = true) :
    ∀ (rs : List PyVal) (n : Nat),
      (∀ r ∈ rs, ∃ o, r = PyVal.obj o ∧ objAllStr o = true) →
      (chemResultsLoop uuidGen ctx sys url kvs rs n).2.2 = none ∧
        ∀ rec ∈ (chemResultsLoop uuidGen ctx sys url kvs rs n).1,
          recordAllStr rec = true ∧ chemicalIrrelevantEmpty rec := by
  intro rs
  induction rs with
  | nil => intro n _; simp [chemResultsLoop]
  | cons r rest ih =>
    intro n h
    obtain ⟨o, rfl, hobj⟩ := h r (by simp)
    obtain ⟨rec, hrec⟩ := mkChemicalItem_ok_of_ok (uuidGen n) ctx sys url kvs o hkvs hobj
    have hstr := mkChemicalItem_allStr (uuidGen n) ctx sys url kvs o rec hkvs hobj hrec
    have ihh := ih (n + 1) (fun r hr => h r (by simp [hr]))
    simp only [chemResultsLoop, hrec]
    refine ⟨ihh.1, ?_⟩
    intro q hq
    rcases List.mem_cons.mp hq with h1 | h2
    · subst h1; exact hstr
    · exact ihh.2 q h2

theorem chemSamplesLoop_props (uuidGen : Nat → String) (ctx : RunCtx)
    (sys : SystemInfo) (url : String) :
    ∀ (samples : List PyVal) (n : Nat),
      (∀ s ∈ samples, ∃ kvs, s = PyVal.obj kvs ∧ chemSampleFieldsOk kvs = true) →
      (chemSamplesLoop uuidGen ctx sys url samples n).2.2 = none ∧
        ∀ rec ∈ (chemSamplesLoop uuidGen ctx sys url samples n).1,
          recordAllStr rec = true ∧ chemicalIrrelevantEmpty rec := by
  intro samples
  induction samples with
  | nil => intro n _; simp [chemSamplesLoop]
  | cons s ss ih =>
    intro n h
    obtain ⟨kvs, rfl, hok⟩ := h s (by simp)
    obtain ⟨rs, hrs, hall⟩ := getResultsList_ok_of_fieldsOk kvs hok
    have hinner := chemResultsLoop_props uuidGen ctx sys url kvs hok rs n hall
    have ihh := ih ((chemResultsLoop uuidGen ctx sys url kvs rs n).2.1)
      (fun s hs => h s (by simp [hs]))
    simp only [chemSamplesLoop, hrs]
    rw [hinner.1]
    simp only
    refine ⟨ihh.1, ?_⟩
    intro q hq
    rcases List.mem_append.mp hq with h1 | h2
    · exact hinner.2 q h1
    · exact ihh.2 q h2

theorem collectAux_honest {α : Type} (entities : List α) (top : Nat) (htop : 0 < top) :
    ∀ (fuel skip reqs : Nat), 0 < fuel →
      entities.length ≤ skip + fuel * top →
      collectAux (honestFetch entities top) top entities.length fuel skip reqs
          (entities.take skip) =
        (entities, reqs + (entities.length - skip - 1) / top + 1, false) := by
  intro fuel
  induction fuel with
  | zero => intro skip reqs h0 _; exact absurd h0 (by simp)
  | succ fuel ih =>
    intro skip reqs _ hle
    have hacc : entities.take skip ++ (entities.drop skip).take top
        = entities.take (skip + top) := (List.take_add entities skip top).symm
    simp only [collectAux, honestFetch]
    rw [hacc]
    by_cases hbreak : entities.length ≤ skip + top
    · have htake : entities.take (skip + top) = entities := List.take_of_length_le hbreak
      have hcond : ((entities.drop skip).take top).length < top ∨
          entities.length ≤ (entities.take (skip + top)).length := by
        right; rw [htake]
      rw [if_pos hcond, htake]
      have hz : (entities.length - skip - 1) / top = 0 := Nat.div_eq_of_lt (by omega)
      rw [hz]
    · push_neg at hbreak
      have hmul : (fuel + 1) * top = fuel * top + top := by ring
      rw [hmul] at hle
      have hfuel : 0 < fuel := by
        rcases Nat.eq_zero_or_pos fuel with h0 | h0
        · subst h0; simp at hle; omega
        · exact h0
      have hblen : ((entities.drop skip).take top).length = top := by
        rw [List.length_take, List.length_drop]; omega
      have htlen : (entities.take (skip + top)).length = skip + top := by
        rw [List.length_take]; omega
      have hcond : ¬(((entities.drop skip).take top).length < top ∨
          entities.length ≤ (entities.take (skip + top)).length) := by
        rw [hblen, htlen]; omega
      rw [if_neg hcond]
      rw [ih (skip + top) (reqs + 1) hfuel (by omega)]
      have h1 : top ≤ entities.length - skip - 1 := by omega
      have hdiv := Nat.div_eq_sub_div htop h1
      have harg : entities.length - skip - 1 - top
          = entities.length - (skip + top) - 1 := by omega
      rw [hdiv, harg]
      simp only [Prod.mk.injEq, and_true, true_and]
      generalize (entities.length - (skip + top) - 1) / top = q
      omega

theorem collectAux_fail {α : Type} (entities : List α) (top m : Nat) (htop : 0 < top)
    (hm : m < entities.length) :
    ∀ (fuel skip reqs : Nat), skip ≤ m → top ∣ (m - skip) →
      (m - skip) / top < fuel →
      collectAux (failAtFetch entities top m) top entities.length fuel skip reqs
          (entities.take skip) =
        (entities.take m, reqs + (m - skip) / top + 1, true) := by
  intro fuel
  induction fuel with
  | zero => intro skip reqs _ _ h0; exact absurd h0 (Nat.not_lt_zero _)
  | succ fuel ih =>
    intro skip reqs hskip hdvd hfuel
    by_cases hsm : skip < m
    · have hfetch : failAtFetch entities top m skip
          = some ((entities.drop skip).take top) := by
        simp [failAtFetch, hsm]
      simp only [collectAux, hfetch]
      have hst : skip + top ≤ m := by
        have hge := Nat.le_of_dvd (by omega) hdvd
        omega
      have hacc : entities.take skip ++ (entities.drop skip).take top
          = entities.take (skip + top) := (List.take_add entities skip top).symm
      rw [hacc]
      have hblen : ((entities.drop skip).take top).length = top := by
        rw [List.length_take, List.length_drop]; omega
      have htlen : (entities.take (skip + top)).length = skip + top := by
        rw [List.length_take]; omega
      have hcond : ¬(((entities.drop skip).take top).length < top ∨
          entities.length ≤ (entities.take (skip + top)).length) := by
        rw [hblen, htlen]; omega
      rw [if_neg hcond]
      have hsub : m - (skip + top) = (m - skip) - top := by omega
      have hdvd' : top ∣ (m - (skip + top)) := by
        rw [hsub]; exact Nat.dvd_sub' hdvd dvd_rfl
      have hdd : (m - skip) / top = (m - (skip + top)) / top + 1 := by
        have h1 : top ≤ m - skip := by
          have hge := Nat.le_of_dvd (by omega) hdvd
          omega
        have hnum : m - skip - top = m - (skip + top) := by omega
        rw [Nat.div_eq_sub_div htop h1, hnum]
      have hfuel' : (m - (skip + top)) / top < fuel := by
        rw [hdd] at hfuel; omega
      rw [ih (skip + top) (reqs + 1) hst hdvd' hfuel']
      rw [hdd]
      simp only [Prod.mk.injEq, and_true, true_and]
      generalize (m - (skip + top)) / top = q
      omega
    · have hfetch : failAtFetch entities top m skip = none := by
        simp only [failAtFetch, if_neg hsm]
      simp only [collectAux, hfetch]
      have hsm' : skip = m := by omega
      subst hsm'
      simp

theorem chemProj_fields (rec : OhioWaterResult) (ctx : RunCtx) (sys : SystemInfo)
    (url : String) (kvs : List (String × PyVal))
    (h : chemSampleProj rec = chemProjOf ctx sys url kvs) :
    rec.pwsid = sys.system_id ∧ rec.unix_timestamp = ctx.unix_timestamp ∧
      rec.timestamp_utc = ctx.timestamp_utc ∧ rec.result_url = url := by
  simp only [chemSampleProj, chemProjOf, Prod.mk.injEq] at h
  obtain ⟨h1, h2, h3, h4, h5, h6, h7, h8, h9, h10, h11, h12, h13, h14, h15, h16,
    h17, h18, h19, h20, h21, h22, h23, h24, h25, h26⟩ := h
  exact ⟨h2, h4, h5, h17⟩

/-- Concrete run context used for the concrete evaluations below. -/
def ctx0 : RunCtx := ⟨"1700000000000", "2023-11-14 22:13:20"⟩

/-- Concrete water system used for the concrete evaluations below. -/
def sys0 : SystemInfo := ⟨"OH1234512", "SPRINGFIELD WATER"⟩

/-- Concrete uuid generator used for the concrete evaluations below. -/
def uuid0 : Nat → String := fun n => "uuid-" ++ toString n

/-- Concrete coliform query URL used for the concrete evaluations below. -/
def url0 : String := "https://ohdwv.gecsws.com/sdwis/SamplingColiformGrid?q"

/-- Concrete chemical query URL used for the concrete evaluations below. -/
def churl0 : String := "https://ohdwv.gecsws.com/sdwis/ChemicalGrid?q"

/-- A raw coliform sample whose nested `Results` list holds two analyte
sub-results. -/
def coliformSample2 : PyVal :=
  .obj [("TSASAMPL_IS_NUMBER", .str "111"), ("Type", .str "RT"),
        ("Results", .arr [
          .obj [("AnalyteCode", .str "3100"), ("AnalyteName", .str "Coliform (TCR)")],
          .obj [("AnalyteCode", .str "3014"), ("AnalyteName", .str "E coli")]])]

/-- A raw sample whose `Type` field is present but `null`. -/
def nullTypeSample : PyVal := .obj [("Type", PyVal.null)]

/-- A raw sample whose `SamplePoint` field is present but `null` (the
coliform path calls `.strip()` on it). -/
def nullStripSample : PyVal := .obj [("SamplePoint", PyVal.null)]

/-- A concrete chemical sample dict (without its `Results`). -/
def chemKvs2 : List (String × PyVal) :=
  [("TSASAMPL_IS_NUMBER", .str "222"), ("Type", .str "DS"),
   ("SamplePoint", .str " EP001 ")]

/-- Two concrete nested analyte sub-results of one chemical sample. -/
def chemRes2 : List PyVal :=
  [.obj [("AnalyteCode", .str "1040"), ("ResultMeasure", .num 3)],
   .obj [("AnalyteCode", .str "1038"), ("ResultMeasure", .str "ND")]]

/-- C1 (counterexample): the claim states that a raw sample with N nested
analyte sub-results yields exactly N records on the coliform path as well;
but normalizing one coliform sample with 2 nested sub-results yields exactly
1 record (the code reads only `Results[0]`), not 2. -/
theorem c1_coliform_counterexample :
    (coliformSamplesLoop uuid0 ctx0 sys0 url0 [coliformSample2] 0).2.2 = none ∧
    (coliformSamplesLoop uuid0 ctx0 sys0 url0 [coliformSample2] 0).1.length = 1 ∧
    (coliformSamplesLoop uuid0 ctx0 sys0 url0 [coliformSample2] 0).1.length ≠ 2 := by
  exact ⟨rfl, rfl, by decide⟩

/-- C1 (amended): on the chemical path, a raw sample with N nested analyte
sub-results normalizes (when no exception occurs) to exactly N records, each
sharing the run timestamps, the entity identifier, the source URL and the
whole sample-level projection (records differ only in the uuid and
analyte-level fields); on the coliform path, each raw sample yields exactly
one record, built from the first sub-result only, again sharing the run
timestamps, entity identifier and source URL. -/
theorem c1_explosion_amended (uuidGen : Nat → String) (ctx : RunCtx)
    (sys : SystemInfo) (url : String) (kvs : List (String × PyVal))
    (rs samples : List PyVal) (n n' : Nat) :
    ((chemResultsLoop uuidGen ctx sys url kvs rs n).2.2 = none →
      (chemResultsLoop uuidGen ctx sys url kvs rs n).1.length = rs.length) ∧
    (∀ rec ∈ (chemResultsLoop uuidGen ctx sys url kvs rs n).1,
      rec.pwsid = sys.system_id ∧ rec.unix_timestamp = ctx.unix_timestamp ∧
        rec.timestamp_utc = ctx.timestamp_utc ∧ rec.result_url = url ∧
        chemSampleProj rec = chemProjOf ctx sys url kvs) ∧
    ((coliformSamplesLoop uuidGen ctx sys url samples n').2.2 = none →
      (coliformSamplesLoop uuidGen ctx sys url samples n').1.length = samples.length) ∧
    (∀ rec ∈ (coliformSamplesLoop uuidGen ctx sys url samples n').1,
      rec.pwsid = sys.system_id ∧ rec.unix_timestamp = ctx.unix_timestamp ∧
        rec.timestamp_utc = ctx.timestamp_utc ∧ rec.result_url = url) := by
  refine ⟨chemResultsLoop_length uuidGen ctx sys url kvs rs n, ?_,
    coliformSamplesLoop_length uuidGen ctx sys url samples n', ?_⟩
  · intro rec hr
    have hp := chemResultsLoop_proj uuidGen ctx sys url kvs rs n rec hr
    have hf := chemProj_fields rec ctx sys url kvs hp
    exact ⟨hf.1, hf.2.1, hf.2.2.1, hf.2.2.2, hp⟩
  · intro rec hr
    have hs := coliformSamplesLoop_shared uuidGen ctx sys url samples n' rec hr
    exact ⟨hs.1, hs.2.2.1, hs.2.2.2.1, hs.2.2.2.2.2⟩

/-- C1 (witness): the amended claim evaluated at a concrete chemical sample
with two nested analyte sub-results: normalization succeeds and yields
exactly two records. -/
theorem c1_explosion_amended_witness :
    (chemResultsLoop uuid0 ctx0 sys0 churl0 chemKvs2 chemRes2 0).2.2 = none ∧
    (chemResultsLoop uuid0 ctx0 sys0 churl0 chemKvs2 chemRes2 0).1.length = 2 := by
  have h := c1_explosion_amended uuid0 ctx0 sys0 churl0 chemKvs2 chemRes2 [] 0 0
  exact ⟨rfl, (h.1 rfl).trans rfl⟩

/-- C2 (counterexample): for an honest source advertising `total_count = 0`,
discovery still issues one page request (it must, to read the advertised
total), so the claimed bound of `ceil(total_count / page_size) = 0` requests
is violated; the entity count (zero) is still correct. -/
theorem c2_zero_total_counterexample :
    collect_all_systems (honestFetch ([] : List Nat) results_per_page)
        results_per_page 0 1 = ([], 1, false) ∧
    ¬((collect_all_systems (honestFetch ([] : List Nat) results_per_page)
        results_per_page 0 1).2.1 ≤ (0 + results_per_page - 1) / results_per_page) := by
  exact ⟨rfl, by decide⟩

/-- C2 (amended): for every honest API-paginated source (one that never
under-reports a page and whose requests all succeed), discovery returns
exactly the source's entities — hence exactly `total_count` of them — in
exactly `(total_count - 1) / page_size + 1` page requests, which is at most
`max 1 (ceil(total_count / page_size))`: the claimed `ceil` bound plus the
one request always needed to read the advertised total when it is zero. -/
theorem c2_pagination_amended {α : Type} (entities : List α) (top : Nat)
    (htop : 0 < top) :
    collect_all_systems (honestFetch entities top) top entities.length
        (entities.length + 1)
      = (entities, (entities.length - 1) / top + 1, false) ∧
    (entities.length - 1) / top + 1 ≤ max 1 ((entities.length + top - 1) / top) := by
  constructor
  · have hle : entities.length ≤ 0 + (entities.length + 1) * top := by
      have hmul : entities.length + 1 ≤ (entities.length + 1) * top :=
        Nat.le_mul_of_pos_right _ htop
      omega
    have h := collectAux_honest entities top htop (entities.length + 1) 0 0
      (by omega) hle
    simpa [collect_all_systems] using h
  · rcases Nat.eq_zero_or_pos entities.length with h0 | h0
    · simp [h0]
    · have harg : entities.length + top - 1 = (entities.length - 1) + top := by omega
      rw [harg, Nat.add_div_right _ htop]
      exact le_max_right _ _

/-- C2 (witness): the amended claim at a concrete three-entity source with
page size two: all three entities in two requests, no truncation. -/
theorem c2_pagination_amended_witness :
    collect_all_systems (honestFetch [1, 2, 3] 2) 2 3 4 = ([1, 2, 3], 2, false) := by
  have h := c2_pagination_amended [1, 2, 3] 2 (by decide)
  exact h.1

/-- C3 (counterexample): a raw sample whose `Type` field is present but
`null` yields a produced record whose `result_sample_type` field is not a
string (the plain `.get('Type', '')` propagates `None`); and a raw sample
whose `SamplePoint` field is present but `null` makes coliform normalization
raise `AttributeError` internally (`None.strip()`), dropping the record. -/
theorem c3_null_field_counterexample :
    ((coliformSamplesLoop uuid0 ctx0 sys0 url0 [nullTypeSample] 0).1.map
        (fun r => isStrVal r.result_sample_type)) = [false] ∧
    (coliformSamplesLoop uuid0 ctx0 sys0 url0 [nullStripSample] 0).2.2
      = some PyErr.attributeError := by
  exact ⟨rfl, rfl⟩

/-- C3 (amended): for raw samples all of whose present field values are
strings (with a present nested `Results` being a list of string-valued
dicts, nonempty on the coliform path), normalization raises no exception on
either fetch path, every field of every produced record is a defined string,
and the fields irrelevant to the record's `result_type` are the empty
string.  Fields that are present but `null` in the raw input are instead
propagated as `null` (plain-copied fields) or raise internally, dropping the
record (stripped fields). -/
theorem c3_all_fields_string_amended (uuidGen : Nat → String) (ctx : RunCtx)
    (sys : SystemInfo) (url : String) (samplesC samplesH : List PyVal) (n n' : Nat)
    (hC : ∀ s ∈ samplesC, ∃ kvs, s = PyVal.obj kvs ∧ coliformSampleOk kvs = true)
    (hH : ∀ s ∈ samplesH, ∃ kvs, s = PyVal.obj kvs ∧ chemSampleFieldsOk kvs = true) :
    ((coliformSamplesLoop uuidGen ctx sys url samplesC n).2.2 = none ∧
      ∀ rec ∈ (coliformSamplesLoop uuidGen ctx sys url samplesC n).1,
        recordAllStr rec = true ∧ coliformIrrelevantEmpty rec) ∧
    ((chemSamplesLoop uuidGen ctx sys url samplesH n').2.2 = none ∧
      ∀ rec ∈ (chemSamplesLoop uuidGen ctx sys url samplesH n').1,
        recordAllStr rec = true ∧ chemicalIrrelevantEmpty rec) :=
  ⟨coliformSamplesLoop_props uuidGen ctx sys url samplesC n hC,
   chemSamplesLoop_props uuidGen ctx sys url samplesH n' hH⟩

/-- C3 (witness): the amended claim at a concrete string-valued coliform
sample: no exception, and every field of the produced record is a string. -/
theorem c3_all_fields_string_amended_witness :
    (coliformSamplesLoop uuid0 ctx0 sys0 url0 [coliformSample2] 0).2.2 = none ∧
    ((coliformSamplesLoop uuid0 ctx0 sys0 url0 [coliformSample2] 0).1.all
        recordAllStr) = true := by
  have h := c3_all_fields_string_amended uuid0 ctx0 sys0 url0 [coliformSample2] [] 0 0
    (fun s hs => by
      simp only [List.mem_singleton] at hs
      subst hs
      exact ⟨_, rfl, by decide⟩)
    (fun s hs => by simp at hs)
  refine ⟨h.1.1, ?_⟩
  rw [List.all_eq_true]
  intro r hr
  exact (h.1.2 r hr).1

/-- C4 (code bug, evaluated): a 204 response yields zero records with no
error-level log on both fetch paths, as the claim says; but a 200 response
with an empty (unparseable) body — which the guard `not response.text` was
meant to catch, and fails to, because the unawaited `response.text` method
object is always truthy — falls through to `response.json()`, whose
exception is caught and logged at error level.  Zero records are still
returned, but the outcome is logged as an error-level failure, contradicting
the claim. -/
theorem c4_empty_body_evaluation :
    get_coliform_results uuid0 ctx0 sys0 url0 (.ok 200) (.ok ⟨204, none⟩)
        = ⟨[], true, false⟩ ∧
    get_chemical_results uuid0 ctx0 sys0 churl0 (.ok 200) (.ok ⟨204, none⟩)
        = ⟨[], true, false⟩ ∧
    get_coliform_results uuid0 ctx0 sys0 url0 (.ok 200) (.ok ⟨200, none⟩)
        = ⟨[], true, true⟩ ∧
    get_chemical_results uuid0 ctx0 sys0 churl0 (.ok 200) (.ok ⟨200, none⟩)
        = ⟨[], true, true⟩ := by
  exact ⟨rfl, rfl, rfl, rfl⟩

/-- C5: when the source serves pages honestly up to offset `k * top` and
the request at that offset returns a non-success status, discovery stops
there, returns exactly the entities of the `k` preceding successful pages
as a partial result, issues `k + 1` requests, and reports the truncation
(the `true` flag models the error-level log of the failed page); nothing
is raised. -/
theorem c5_partial_discovery {α : Type} (entities : List α) (top k : Nat)
    (htop : 0 < top) (hreach : k * top < entities.length) :
    collect_all_systems (failAtFetch entities top (k * top)) top entities.length
        (entities.length + 1)
      = (entities.take (k * top), k + 1, true) := by
  have hdvd : top ∣ (k * top - 0) := by
    rw [Nat.sub_zero]
    exact Dvd.intro_left k rfl
  have hdiv : (k * top - 0) / top = k := by
    rw [Nat.sub_zero]
    exact Nat.mul_div_cancel k htop
  have hfuel : (k * top - 0) / top < entities.length + 1 := by
    rw [hdiv]
    have hk : k ≤ k * top := Nat.le_mul_of_pos_right k htop
    omega
  have h := collectAux_fail entities top (k * top) htop hreach
    (entities.length + 1) 0 0 (Nat.zero_le _) hdvd hfuel
  rw [hdiv] at h
  simpa [collect_all_systems] using h

/-- C5 (witness): a five-entity source with page size two failing at the
second page request: discovery returns the first page's two entities, after
exactly two requests, flagged as truncated. -/
theorem c5_partial_discovery_witness :
    collect_all_systems (failAtFetch [10, 20, 30, 40, 50] 2 2) 2 5 6
      = ([10, 20], 2, true) := by
  have h := c5_partial_discovery [10, 20, 30, 40, 50] 2 1 (by decide) (by decide)
  exact h

/-- C6: a result query is issued only after a successful (HTTP 200)
configuration request; when the configuration request fails — a non-200
status or a transport exception — the fetch returns exactly zero records
for that system and record family without ever issuing the result query
(error-level logging happens only for the transport-exception case, inside
the configuration helper). -/
theorem c6_config_priming (uuidGen : Nat → String) (ctx : RunCtx)
    (sys : SystemInfo) (url : String) (cfgResp : Except PyErr Nat)
    (resp : Except PyErr HttpResp) (h : get_coliform_config cfgResp = false) :
    get_coliform_results uuidGen ctx sys url cfgResp resp
        = ⟨[], false, configErrorLogged cfgResp⟩ ∧
    get_chemical_results uuidGen ctx sys url cfgResp resp
        = ⟨[], false, configErrorLogged cfgResp⟩ := by
  have h2 : get_chemical_config cfgResp = false := h
  constructor
  · simp [get_coliform_results, h]
  · simp [get_chemical_results, h2]

/-- C6 (witness): the claim evaluated at a configuration request that
returned HTTP 500: zero records, no query issued. -/
theorem c6_config_priming_witness :
    get_coliform_results uuid0 ctx0 sys0 url0 (.ok 500) (.ok ⟨200, none⟩)
        = ⟨[], false, false⟩ ∧
    get_chemical_results uuid0 ctx0 sys0 churl0 (.ok 500) (.ok ⟨200, none⟩)
        = ⟨[], false, false⟩ := by
  have h1 := c6_config_priming uuid0 ctx0 sys0 url0 (.ok 500) (.ok ⟨200, none⟩)
    (by decide)
  have h2 := c6_config_priming uuid0 ctx0 sys0 churl0 (.ok 500) (.ok ⟨200, none⟩)
    (by decide)
  exact ⟨h1.1, h2.2⟩

/-- C8: when the accumulated record set is empty at export time, the
Tennessee sink synthesizes exactly the fixed-size set of 1000 placeholder
records before exporting; every synthesized record carries the reserved
identifier pattern (a `TEST`-prefixed zero-padded lab sample number and the
fixed test URL); and when the accumulated set is nonempty, no synthesis
happens. -/
theorem c8_synthetic_fallback (ctx : RunCtx) (uuidGen : Nat → String)
    (scraped : List TennesseeWaterResult) :
    tennesseeFinalRecords ctx uuidGen [] = generate_test_data ctx uuidGen 1000 ∧
    (generate_test_data ctx uuidGen 1000).length = 1000 ∧
    (∀ r ∈ generate_test_data ctx uuidGen 1000, IsSyntheticMarked r) ∧
    (scraped ≠ [] → tennesseeFinalRecords ctx uuidGen scraped = scraped) := by
  refine ⟨by simp [tennesseeFinalRecords], by simp [generate_test_data], ?_, ?_⟩
  · intro r hr
    simp only [generate_test_data, List.mem_map] at hr
    obtain ⟨i, _, rfl⟩ := hr
    exact ⟨⟨i, rfl⟩, rfl⟩
  · intro hne
    simp [tennesseeFinalRecords, hne]

/-- C8 (witness): the synthetic-record marking evaluated at the sixth
generated record, and the no-synthesis branch at a one-record accumulator. -/
theorem c8_synthetic_fallback_witness :
    IsSyntheticMarked (mkTestResult ctx0 (uuid0 5) 5) ∧
    tennesseeFinalRecords ctx0 uuid0 [mkTestResult ctx0 "u" 0]
      = [mkTestResult ctx0 "u" 0] := by
  have h := c8_synthetic_fallback ctx0 uuid0 [mkTestResult ctx0 "u" 0]
  refine ⟨h.2.2.1 (mkTestResult ctx0 (uuid0 5) 5) ?_, h.2.2.2 (by simp)⟩
  simp only [generate_test_data, List.mem_map]
  exact ⟨5, by simp, rfl⟩

/-- C9: when the access key or the secret is absent from the environment,
the upload step of both upload helpers ends without uploading and without
raising to the caller, and the save step still reports the local JSON file
(the durable artifact) as written. -/
theorem c9_missing_credentials (records : List ScrapedData)
    (orecords : List OhioWaterResult) (key secret : Option String)
    (uploadOk : Except PyErr Unit) (h : key = none ∨ secret = none) :
    (fantine_upload_to_spaces key secret uploadOk).uploaded = false ∧
    (fantine_upload_to_spaces key secret uploadOk).raisedToCaller = false ∧
    (ohio_upload_to_spaces key secret uploadOk).uploaded = false ∧
    (ohio_upload_to_spaces key secret uploadOk).raisedToCaller = false ∧
    (fantine_save_results records key secret uploadOk).1 = some records ∧
    (ohio_save_results orecords key secret uploadOk).1 = some orecords := by
  rcases h with rfl | rfl
  · simp [fantine_upload_to_spaces, ohio_upload_to_spaces, fantine_save_results,
      ohio_save_results]
  · cases key <;>
      simp [fantine_upload_to_spaces, ohio_upload_to_spaces, fantine_save_results,
        ohio_save_results]

/-- C9 (witness): the claim evaluated with both credentials absent and a
transport-capable upload collaborator: no upload, nothing raised, the local
file still reported written. -/
theorem c9_missing_credentials_witness :
    (fantine_upload_to_spaces none none (.ok ())).uploaded = false ∧
    (ohio_upload_to_spaces none none (.ok ())).raisedToCaller = false ∧
    (fantine_save_results [] none none (.ok ())).1 = some [] := by
  have h := c9_missing_credentials [] [] none none (.ok ()) (Or.inl rfl)
  exact ⟨h.1, h.2.2.2.1, h.2.2.2.2.1⟩

/-- C10: the generic per-URL scrape is total — for every URL, any exception
inside the fetch (modelled by the error case of the response) produces a
`ScrapedData` record with status code 0, empty title and content, and the
error message recorded in the metadata, so the batch holds exactly one
record per queued URL. -/
theorem c10_scrape_total (extractTitle cleanContent : String → String)
    (ts : String) (rt : Nat) (url : String) (e : PyErr)
    (inputs : List (String × Except PyErr HttpText)) :
    scrape_url extractTitle cleanContent ts rt url (.error e)
        = { url := url, title := "", content := "", timestamp := ts,
            status_code := 0, response_time := rt,
            metadata := [("error", .str (errMsg e))] } ∧
    (scrapeBatch extractTitle cleanContent ts rt inputs).length = inputs.length := by
  exact ⟨rfl, by simp [scrapeBatch]⟩
